import Mathlib

/-!
Verification development for the InfraBlocks graph-to-Terraform compiler.

The definitions below are a shallow embedding of the TypeScript sources:
  - src/components/terraform-generator.ts  (class TerraformGenerator)
  - src/lib/config-loader.ts               (class ConfigLoader)
JavaScript dynamic values (the `any`-typed configuration maps) are modelled by
the inductive type `Value`; JavaScript objects are association lists that keep
insertion order, with property assignment overwriting in place (as JS does).
The wall clock (`Date.now()`) is passed explicitly as a `now : Nat` parameter.
The schema store (`ConfigLoader.loadServiceConfig`) is modelled for the compile
pass as a pure lookup function `String → String → Option ServiceConfig`; its
cache behaviour is modelled separately, by explicit state passing.
-/

namespace InfraBlocks

/-- JS dynamic value: the codomain of `Record<string, any>` as used by the
generator.  `vUndefined` models a missing/`undefined` property. -/
inductive Value where
  | vUndefined : Value
  | vNull : Value
  | vBool : Bool → Value
  | vNum : Int → Value
  | vStr : String → Value
  | vList : List Value → Value
  | vObj : List (String × Value) → Value

/-- JS object: ordered association list of properties. -/
abbrev JsObj := List (String × Value)

/-- Property read `o[k]`: first binding wins; absent key yields `undefined`. -/
def getProp (m : JsObj) (k : String) : Value :=
  match m.find? (fun p => p.1 == k) with
  | some p => p.2
  | none => Value.vUndefined

/-- Property assignment `o[k] = v`: overwrites an existing binding in place
(keeping its position, as JS objects do) or appends a new one. -/
def upsert (m : JsObj) (k : String) (v : Value) : JsObj :=
  if m.any (fun p => p.1 == k) then
    m.map (fun p => if p.1 == k then (k, v) else p)
  else
    m ++ [(k, v)]

/-- Object spread `{...a, ...b}`: entries of `a` then entries of `b`, with
`b` overriding key-by-key. -/
def spread (a b : JsObj) : JsObj :=
  b.foldl (fun acc p => upsert acc p.1 p.2) a

/-- JS truthiness of a value (`undefined`, `null`, `false`, `0`, `""` are
falsy; arrays and objects are truthy). -/
def jsTruthy : Value → Bool
  | Value.vUndefined => false
  | Value.vNull => false
  | Value.vBool b => b
  | Value.vNum n => !(n == 0)
  | Value.vStr s => !(s == "")
  | Value.vList _ => true
  | Value.vObj _ => true

/-- JS `a || b`. -/
def jsOr (a b : Value) : Value :=
  if jsTruthy a then a else b

/-- The `x as string` casts in the generator: every claim-relevant input
stores a string there (a non-string would make the JS source fault on the
subsequent `.toLowerCase()` call, so those inputs are outside the model). -/
def asString : Value → String
  | Value.vStr s => s
  | _ => ""

/-! ## sanitizeName (terraform-generator.ts lines 394-400)

`name.toLowerCase().replace(/[^a-z0-9]/g,"_").replace(/_+/g,"_").replace(/^_|_$/g,"")`
modelled character-list by character-list.  `jsToLower` is the ASCII case map
performed by `String.prototype.toLowerCase`. -/

/-- ASCII lower-casing of one character, as JS `toLowerCase` does on ASCII. -/
def jsToLower (c : Char) : Char :=
  if 65 ≤ c.toNat && c.toNat ≤ 90 then Char.ofNat (c.toNat + 32) else c

/-- Characters kept by the `[^a-z0-9]` complement: lowercase ASCII letters and
digits. -/
def isKeep (c : Char) : Bool :=
  (97 ≤ c.toNat && c.toNat ≤ 122) || (48 ≤ c.toNat && c.toNat ≤ 57)

/-- One character after `toLowerCase` and `replace(/[^a-z0-9]/g, "_")`. -/
def lowerKeep (c : Char) : Char :=
  if isKeep (jsToLower c) then jsToLower c else '_'

/-- `replace(/_+/g, "_")`: collapse each run of underscores to a single one. -/
def squeeze : List Char → List Char
  | [] => []
  | [a] => [a]
  | a :: b :: t =>
    if a == '_' && b == '_' then squeeze (b :: t)
    else a :: squeeze (b :: t)

/-- The `^_` half of `replace(/^_|_$/g, "")`: drop one leading underscore. -/
def dropLeadU : List Char → List Char
  | [] => []
  | c :: t => if c == '_' then t else c :: t

/-- The `_$` half of `replace(/^_|_$/g, "")`: drop one trailing underscore. -/
def dropTrailU (l : List Char) : List Char :=
  if l.getLast? == some '_' then l.dropLast else l

/-- Character-list form of `sanitizeName`. -/
def sanitizeList (cs : List Char) : List Char :=
  dropTrailU (dropLeadU (squeeze (cs.map lowerKeep)))

/-- `sanitizeName` (terraform-generator.ts lines 394-400). -/
def sanitizeName (s : String) : String :=
  String.mk (sanitizeList s.toList)

example : sanitizeName "My Bucket" = "my_bucket" := by decide

example : sanitizeName "__Hello--World__" = "hello_world" := by decide

/-! ## Graph data model (the @xyflow/react Node/Edge fields the generator reads) -/

/-- The `node.data` record as read by the generator: `data.id` is the
service id, `data.name` the display name (a dynamic value, may be absent),
`data.terraformType` the Terraform resource type, `data.config` the user's
sparse configuration overrides. -/
structure NodeData where
  serviceId : String
  name : Value
  terraformType : String
  config : JsObj

/-- A canvas node: `id` is the graph-unique node id. -/
structure Node where
  id : String
  data : NodeData

/-- A canvas edge: only `source` and `target` are read by the generator. -/
structure Edge where
  source : String
  target : String

/-- `TerraformResource` (terraform-generator.ts lines 5-10). -/
structure TerraformResource where
  type : String
  name : String
  config : JsObj
  dependencies : List String

/-- `TerraformOutput` (terraform-generator.ts lines 12-17); the source field
name `variables` collides with a reserved Lean command, hence the prime. -/
structure TerraformOutput where
  provider : String
  resources : List TerraformResource
  variables' : JsObj
  outputs : JsObj

/-- `ServiceConfig` (config-loader.ts lines 15-24); only the fields the
generator reads are carried. -/
structure ServiceConfig where
  id : String
  name : String
  category : String
  terraformType : String
  defaultConfig : JsObj

/-- The schema-lookup capability: the resolved behaviour of
`ConfigLoader.loadServiceConfig (provider, serviceId)` during one compile
(schemas are immutable reference data, so the lookup is a stable function). -/
abbrev SchemaLookup := String → String → Option ServiceConfig

/-! ## Small JS helpers used by the dispatch branches -/

/-- Leading-integer parse of a string, as `Number.parseInt` does on the
plain decimal strings stored in the configuration maps. -/
def parseDigits (l : List Char) : Option Nat :=
  let ds := l.takeWhile (fun c => 48 ≤ c.toNat && c.toNat ≤ 57)
  if ds.isEmpty then none
  else some (ds.foldl (fun a c => a * 10 + (c.toNat - 48)) 0)

/-- `Number.parseInt` on a dynamic value (NaN on non-numeric input). -/
def jsParseInt : Value → Option Int
  | Value.vNum n => some n
  | Value.vStr s =>
    match s.toList with
    | '-' :: rest => (parseDigits rest).map (fun n => -(n : Int))
    | l => (parseDigits l).map (fun n => (n : Int))
  | _ => none

/-- `Number.parseInt(v) || d`: NaN and 0 both fall back to the default. -/
def jsParseIntOr (v : Value) (d : Int) : Int :=
  match jsParseInt v with
  | some n => if n == 0 then d else n
  | none => d

/-- Strict equality `v === "s"` against a string literal. -/
def strictEqStr (v : Value) (s : String) : Bool :=
  match v with
  | Value.vStr t => t == s
  | _ => false

/-- `v !== false`. -/
def jsStrictNeFalse : Value → Bool
  | Value.vBool false => false
  | _ => true

/-- The `config.x && config.x.length > 0` guard on line 143: only arrays and
strings have a numeric `.length`. -/
def truthyWithLength (v : Value) : Bool :=
  jsTruthy v &&
    (match v with
     | Value.vList l => decide (0 < l.length)
     | Value.vStr s => decide (0 < s.length)
     | _ => false)

/-- `getEngineVersion` (terraform-generator.ts lines 415-422):
`versions[engine] || "8.0"`. -/
def getEngineVersion (engine : Value) : String :=
  match engine with
  | Value.vStr "mysql" => "8.0"
  | Value.vStr "postgres" => "13.7"
  | Value.vStr "mariadb" => "10.6"
  | _ => "8.0"

/-- `getDBSubnetGroupReference` (terraform-generator.ts lines 425-428). -/
def getDBSubnetGroupReference (_nodeId : String) : String :=
  "aws_db_subnet_group.main.name"

/-! ## NetworkInfrastructureGenerator

Modelled from the spec: the file `src/lib/network-infrastructure-generator.ts`
is imported by the generator but is not part of the available sources; only
its call sites are.  Per spec section 4.2, the injector scans the node set
once, and when some node's service category requires network placement it
synthesizes exactly one shared instance of each scaffold resource, unless the
user already placed an explicit node of that scaffold type (checked by
scanning existing service ids first). -/

/-- Modelled from the spec: service categories that require network placement
and an access-control boundary (compute, database, load balancer - the ones
whose AWS dispatch branches reference the injected scaffolding). -/
def requiresNetworkScaffold (serviceId : String) : Bool :=
  serviceId == "ec2" || serviceId == "rds" || serviceId == "alb"

/-- Modelled from the spec: `NetworkInfrastructureGenerator.needsVPCInfrastructure`. -/
def needsVPCInfrastructure (nodes : List Node) : Bool :=
  nodes.any (fun n => requiresNetworkScaffold n.data.serviceId) &&
    !(nodes.any (fun n => n.data.serviceId == "vpc"))

/-- Modelled from the spec: `NetworkInfrastructureGenerator.getSecurityGroupReference`. -/
def getSecurityGroupReference : String :=
  "aws_security_group.default.id"

/-- Modelled from the spec: `NetworkInfrastructureGenerator.getSubnetReference`. -/
def getSubnetReference (_serviceId : String) : String :=
  "aws_subnet.public.id"

/-- Modelled from the spec: `NetworkInfrastructureGenerator.generateVPCInfrastructure`,
one shared VPC plus its networking scaffolding, a fixed record set independent
of the node list. -/
def vpcInfrastructure : List TerraformResource :=
  [ { type := "aws_vpc", name := "main",
      config := [("cidr_block", Value.vStr "10.0.0.0/16")], dependencies := [] },
    { type := "aws_subnet", name := "public",
      config := [("cidr_block", Value.vStr "10.0.1.0/24")], dependencies := [] },
    { type := "aws_internet_gateway", name := "main",
      config := [], dependencies := [] },
    { type := "aws_route_table", name := "public",
      config := [], dependencies := [] } ]

/-- Modelled from the spec: `NetworkInfrastructureGenerator.generateDefaultSecurityGroup`. -/
def defaultSecurityGroup : TerraformResource :=
  { type := "aws_security_group", name := "default",
    config := [("name", Value.vStr "default-sg")], dependencies := [] }

/-- Modelled from the spec: `NetworkInfrastructureGenerator.generateSecurityGroupRules`. -/
def securityGroupRules : List TerraformResource :=
  [ { type := "aws_security_group_rule", name := "egress_all",
      config := [("type", Value.vStr "egress")], dependencies := [] },
    { type := "aws_security_group_rule", name := "ingress_ssh",
      config := [("type", Value.vStr "ingress")], dependencies := [] } ]

/-- The implicit-infrastructure contribution of `generateResources`
(terraform-generator.ts lines 46-54): scaffold records are pushed once,
before the per-node loop, and only for AWS graphs that need them. -/
def injectedScaffold (provider : String) (nodes : List Node) : List TerraformResource :=
  if provider == "aws" && needsVPCInfrastructure nodes then
    vpcInfrastructure ++ [defaultSecurityGroup] ++ securityGroupRules
  else
    []

/-! ## TerraformGenerator: dependency resolution and per-service dispatch -/

/-- The resource name used for a node throughout the generator:
`sanitizeName((node.data.name as string) || (node.data.id as string))`. -/
def resourceNameOf (n : Node) : String :=
  sanitizeName (asString (jsOr n.data.name (Value.vStr n.data.serviceId)))

/-- The declarative reference emitted for a source node:
`sourceNode.data.terraformType + "." + sanitized name`. -/
def refOf (n : Node) : String :=
  n.data.terraformType ++ "." ++ resourceNameOf n

/-- `getDependencies` (terraform-generator.ts lines 301-316): a forEach over
the edge list pushing one reference per incoming edge whose source id finds a
node; modelled as the equivalent left fold. -/
def getDependencies (nodes : List Node) (edges : List Edge) (nodeId : String) : List String :=
  edges.foldl
    (fun deps e =>
      if e.target == nodeId then
        match nodes.find? (fun n => n.id == e.source) with
        | some s => deps ++ [refOf s]
        | none => deps
      else deps)
    []

/-- The `resourceConfig.tags` object assigned on lines 130-133:
`{Name: config.name || node.data.name, Environment: "terraform-generated"}`. -/
def awsTags (config : JsObj) (n : Node) : Value :=
  Value.vObj
    [ ("Name", jsOr (getProp config "name") n.data.name),
      ("Environment", Value.vStr "terraform-generated") ]

/-- `generateAWSConfig` (terraform-generator.ts lines 126-209). -/
def generateAWSConfig (serviceId : String) (config : JsObj) (n : Node) (now : Nat) : JsObj :=
  let tags := awsTags config n
  if serviceId == "ec2" then
    [ ("ami", getProp config "ami"),
      ("instance_type", getProp config "instance_type"),
      ("key_name", jsOr (getProp config "key_name") Value.vNull),
      ("vpc_security_group_ids",
        if truthyWithLength (getProp config "vpc_security_group_ids") then
          getProp config "vpc_security_group_ids"
        else Value.vList [Value.vStr getSecurityGroupReference]),
      ("subnet_id", jsOr (getProp config "subnet_id") (Value.vStr (getSubnetReference serviceId))),
      ("associate_public_ip_address", getProp config "associate_public_ip_address"),
      ("tags", tags) ]
  else if serviceId == "s3" then
    [ ("bucket",
        jsOr (getProp config "bucket_name")
          (Value.vStr (sanitizeName (asString n.data.name) ++ "-bucket-" ++ toString now))),
      ("versioning", Value.vObj [("enabled", Value.vBool (strictEqStr (getProp config "versioning") "Enabled"))]),
      ("tags", tags) ]
  else if serviceId == "rds" then
    [ ("identifier", jsOr (getProp config "db_name") (Value.vStr (sanitizeName (asString n.data.name) ++ "-db"))),
      ("engine", getProp config "engine"),
      ("engine_version", Value.vStr (getEngineVersion (getProp config "engine"))),
      ("instance_class", getProp config "instance_class"),
      ("allocated_storage", Value.vNum (jsParseIntOr (getProp config "allocated_storage") 20)),
      ("db_name", jsOr (getProp config "db_name") (Value.vStr "mydb")),
      ("username", Value.vStr "admin"),
      ("password", Value.vStr "var.db_password"),
      ("vpc_security_group_ids", Value.vList [Value.vStr getSecurityGroupReference]),
      ("db_subnet_group_name", Value.vStr (getDBSubnetGroupReference n.id)),
      ("skip_final_snapshot", Value.vBool true),
      ("tags", tags) ]
  else if serviceId == "lambda" then
    [ ("function_name", jsOr (getProp config "function_name") (Value.vStr (sanitizeName (asString n.data.name) ++ "-function"))),
      ("runtime", getProp config "runtime"),
      ("handler", Value.vStr "index.handler"),
      ("filename", Value.vStr "lambda_function.zip"),
      ("memory_size", Value.vNum (jsParseIntOr (getProp config "memory_size") 128)),
      ("timeout", Value.vNum (jsParseIntOr (getProp config "timeout") 30)),
      ("role", Value.vStr "aws_iam_role.lambda_role.arn"),
      ("tags", tags) ]
  else if serviceId == "vpc" then
    [ ("cidr_block", getProp config "cidr_block"),
      ("enable_dns_hostnames", Value.vBool (jsStrictNeFalse (getProp config "enable_dns_hostnames"))),
      ("enable_dns_support", Value.vBool (jsStrictNeFalse (getProp config "enable_dns_support"))),
      ("tags", tags) ]
  else if serviceId == "alb" then
    [ ("name", jsOr (getProp config "name") (Value.vStr (sanitizeName (asString n.data.name) ++ "-alb"))),
      ("load_balancer_type", getProp config "load_balancer_type"),
      ("scheme", getProp config "scheme"),
      ("subnets", Value.vList [Value.vStr (getSubnetReference serviceId)]),
      ("security_groups", Value.vList [Value.vStr getSecurityGroupReference]),
      ("tags", tags) ]
  else
    upsert config "tags" tags

/-- `generateGCPConfig` (terraform-generator.ts lines 211-256). -/
def generateGCPConfig (serviceId : String) (config : JsObj) (n : Node) : JsObj :=
  if serviceId == "compute" then
    [ ("name", jsOr (getProp config "name") (Value.vStr (sanitizeName (asString n.data.name) ++ "-instance"))),
      ("machine_type", jsOr (getProp config "machine_type") (Value.vStr "e2-micro")),
      ("zone", jsOr (getProp config "zone") (Value.vStr "us-central1-a")),
      ("boot_disk", Value.vObj
        [("initialize_params", Value.vObj
          [("image", jsOr (getProp config "image") (Value.vStr "debian-cloud/debian-11"))])]),
      ("network_interface", Value.vObj
        [("network", Value.vStr "default"), ("access_config", Value.vObj [])]),
      ("labels", Value.vObj [("environment", Value.vStr "terraform-generated")]) ]
  else if serviceId == "storage" then
    [ ("name", jsOr (getProp config "name") (Value.vStr (sanitizeName (asString n.data.name) ++ "-bucket"))),
      ("location", jsOr (getProp config "location") (Value.vStr "US")),
      ("storage_class", jsOr (getProp config "storage_class") (Value.vStr "STANDARD")),
      ("labels", Value.vObj [("environment", Value.vStr "terraform-generated")]) ]
  else if serviceId == "sql" then
    [ ("name", jsOr (getProp config "name") (Value.vStr (sanitizeName (asString n.data.name) ++ "-db"))),
      ("database_version", jsOr (getProp config "database_version") (Value.vStr "MYSQL_8_0")),
      ("tier", jsOr (getProp config "tier") (Value.vStr "db-f1-micro")),
      ("settings", Value.vObj [("disk_size", Value.vNum 10), ("disk_type", Value.vStr "PD_SSD")]) ]
  else
    config

/-- `generateAzureConfig` (terraform-generator.ts lines 258-299). -/
def generateAzureConfig (serviceId : String) (config : JsObj) (n : Node) : JsObj :=
  if serviceId == "vm" then
    [ ("name", jsOr (getProp config "name") (Value.vStr (sanitizeName (asString n.data.name) ++ "-vm"))),
      ("resource_group_name", Value.vStr "azurerm_resource_group.main.name"),
      ("location", jsOr (getProp config "location") (Value.vStr "East US")),
      ("size", jsOr (getProp config "vm_size") (Value.vStr "Standard_B1s")),
      ("admin_username", Value.vStr "adminuser"),
      ("disable_password_authentication", Value.vBool true),
      ("network_interface_ids", Value.vList [Value.vStr "azurerm_network_interface.main.id"]),
      ("os_disk", Value.vObj
        [ ("caching", Value.vStr "ReadWrite"),
          ("storage_account_type", jsOr (getProp config "os_disk_type") (Value.vStr "Standard_LRS")) ]),
      ("source_image_reference", Value.vObj
        [ ("publisher", Value.vStr "Canonical"),
          ("offer", Value.vStr "0001-com-ubuntu-server-focal"),
          ("sku", Value.vStr "20_04-lts-gen2"),
          ("version", Value.vStr "latest") ]),
      ("tags", Value.vObj [("environment", Value.vStr "terraform-generated")]) ]
  else if serviceId == "blob" then
    [ ("name", jsOr (getProp config "name") (Value.vStr (sanitizeName (asString n.data.name) ++ "storage"))),
      ("resource_group_name", Value.vStr "azurerm_resource_group.main.name"),
      ("location", jsOr (getProp config "location") (Value.vStr "East US")),
      ("account_tier", jsOr (getProp config "account_tier") (Value.vStr "Standard")),
      ("account_replication_type", jsOr (getProp config "replication_type") (Value.vStr "LRS")),
      ("tags", Value.vObj [("environment", Value.vStr "terraform-generated")]) ]
  else
    config

/-- `generateResourceConfig` (terraform-generator.ts lines 89-124): merge the
schema defaults under the user configuration when the schema resolves, then
dispatch per provider; fall back to the user configuration alone when it does
not. -/
def generateResourceConfig (lookup : SchemaLookup) (provider : String) (n : Node) (now : Nat) : JsObj :=
  let baseConfig := n.data.config
  match lookup provider n.data.serviceId with
  | some sc =>
    let merged := spread sc.defaultConfig baseConfig
    if provider == "aws" then generateAWSConfig n.data.serviceId merged n now
    else if provider == "gcp" then generateGCPConfig n.data.serviceId merged n
    else if provider == "azure" then generateAzureConfig n.data.serviceId merged n
    else merged
  | none =>
    if provider == "aws" then generateAWSConfig n.data.serviceId baseConfig n now
    else if provider == "gcp" then generateGCPConfig n.data.serviceId baseConfig n
    else if provider == "azure" then generateAzureConfig n.data.serviceId baseConfig n
    else baseConfig

/-- The extra `aws_s3_bucket_public_access_block` record pushed for every
node whose `data.id` is `"s3"` (terraform-generator.ts lines 69-83). -/
def publicAccessBlock (n : Node) : TerraformResource :=
  { type := "aws_s3_bucket_public_access_block",
    name := resourceNameOf n,
    config :=
      [ ("bucket", Value.vStr (n.data.terraformType ++ "." ++ resourceNameOf n ++ ".id")),
        ("block_public_acls", Value.vBool true),
        ("block_public_policy", Value.vBool true),
        ("ignore_public_acls", Value.vBool true),
        ("restrict_public_buckets", Value.vBool true) ],
    dependencies := [n.data.terraformType ++ "." ++ resourceNameOf n] }

/-- The main record pushed for one node (terraform-generator.ts lines 61-66). -/
def mainRecord (lookup : SchemaLookup) (provider : String) (nodes : List Node)
    (edges : List Edge) (now : Nat) (n : Node) : TerraformResource :=
  { type := n.data.terraformType,
    name := resourceNameOf n,
    config := generateResourceConfig lookup provider n now,
    dependencies := getDependencies nodes edges n.id }

/-- The records contributed by one iteration of the per-node loop of
`generateResources` (terraform-generator.ts lines 56-84). -/
def nodeRecords (lookup : SchemaLookup) (provider : String) (nodes : List Node)
    (edges : List Edge) (now : Nat) (n : Node) : List TerraformResource :=
  let main := mainRecord lookup provider nodes edges now n
  if n.data.serviceId == "s3" then [main, publicAccessBlock n] else [main]

/-- `generateResources` (terraform-generator.ts lines 43-87): the implicit
scaffolding first, then the per-node records in node order. -/
def generateResources (lookup : SchemaLookup) (provider : String) (nodes : List Node)
    (edges : List Edge) (now : Nat) : List TerraformResource :=
  injectedScaffold provider nodes ++ nodes.flatMap (nodeRecords lookup provider nodes edges now)

/-- `getDefaultRegion` (terraform-generator.ts lines 402-413). -/
def getDefaultRegion (provider : String) : String :=
  if provider == "aws" then "us-east-1"
  else if provider == "gcp" then "us-central1"
  else if provider == "azure" then "East US"
  else "us-east-1"

/-- `generateVariables` (terraform-generator.ts lines 318-345): the two common
variables, plus `db_password` only for AWS graphs containing an `rds` node. -/
def generateVariables (provider : String) (nodes : List Node) : JsObj :=
  [ ("environment", Value.vObj
      [ ("description", Value.vStr "Environment name"),
        ("type", Value.vStr "string"),
        ("default", Value.vStr "dev") ]),
    ("region", Value.vObj
      [ ("description", Value.vStr "Cloud provider region"),
        ("type", Value.vStr "string"),
        ("default", Value.vStr (getDefaultRegion provider)) ]) ]
  ++
  (if provider == "aws" && nodes.any (fun n => n.data.serviceId == "rds") then
    [ ("db_password", Value.vObj
        [ ("description", Value.vStr "Database password"),
          ("type", Value.vStr "string"),
          ("sensitive", Value.vBool true) ]) ]
   else [])

/-- The outputs contributed by one node (terraform-generator.ts lines 350-389),
keyed by service id; `outputs[name] = ...` is JS property assignment. -/
def nodeOutputs (acc : JsObj) (n : Node) : JsObj :=
  let rname := resourceNameOf n
  let rtype := n.data.terraformType
  let sid := n.data.serviceId
  let dname := asString n.data.name
  if sid == "ec2" || sid == "compute" || sid == "vm" then
    upsert acc (rname ++ "_public_ip") (Value.vObj
      [ ("description", Value.vStr ("Public IP of " ++ dname)),
        ("value", Value.vStr (rtype ++ "." ++ rname ++ ".public_ip")) ])
  else if sid == "s3" || sid == "storage" || sid == "blob" then
    upsert acc (rname ++ "_bucket_name") (Value.vObj
      [ ("description", Value.vStr ("Name of " ++ dname ++ " bucket")),
        ("value", Value.vStr (rtype ++ "." ++ rname ++ ".bucket")) ])
  else if sid == "rds" || sid == "sql" then
    upsert acc (rname ++ "_endpoint") (Value.vObj
      [ ("description", Value.vStr ("Database endpoint for " ++ dname)),
        ("value", Value.vStr (rtype ++ "." ++ rname ++ ".endpoint")) ])
  else if sid == "alb" || sid == "lb" then
    upsert acc (rname ++ "_dns_name") (Value.vObj
      [ ("description", Value.vStr ("DNS name of " ++ dname)),
        ("value", Value.vStr (rtype ++ "." ++ rname ++ ".dns_name")) ])
  else acc

/-- `generateOutputs` (terraform-generator.ts lines 347-392). -/
def generateOutputs (nodes : List Node) : JsObj :=
  nodes.foldl nodeOutputs []

/-- `generate` (terraform-generator.ts lines 30-41): the whole compile pass on
a `(provider, nodes, edges)` snapshot, with the schema store and the wall
clock (`Date.now()`) passed explicitly. -/
def generate (lookup : SchemaLookup) (provider : String) (nodes : List Node)
    (edges : List Edge) (now : Nat) : TerraformOutput :=
  { provider := provider,
    resources := generateResources lookup provider nodes edges now,
    variables' := generateVariables provider nodes,
    outputs := generateOutputs nodes }

/-! ## Code emitter: formatResourceConfig (terraform-generator.ts lines 555-596) -/

/-- `"  ".repeat(indent)`. -/
def indentStr (n : Nat) : String :=
  String.mk (List.replicate (2 * n) ' ')

/-- `value.startsWith(p)`, character-list form. -/
def strStartsWith (s p : String) : Bool :=
  p.toList.isPrefixOf s.toList

/-- The reference-prefix test of lines 565-570: a string is emitted unquoted
when it starts with `var.`, `aws_`, `google_` or `azurerm_`. -/
def isRefString (s : String) : Bool :=
  strStartsWith s "var." || strStartsWith s "aws_" ||
    strStartsWith s "google_" || strStartsWith s "azurerm_"

mutual

/-- String coercion applied by `Array.prototype.join` to a non-string array
element inside the template of line 578 (`null`/`undefined` join as empty,
nested arrays join with commas, objects stringify opaquely). -/
def elemStr : Value → String
  | Value.vUndefined => ""
  | Value.vNull => ""
  | Value.vBool b => if b then "true" else "false"
  | Value.vNum n => toString n
  | Value.vStr s => s
  | Value.vList l => elemsJoin l
  | Value.vObj _ => "[object Object]"

/-- `Array.prototype.toString`: elements joined with bare commas. -/
def elemsJoin : List Value → String
  | [] => ""
  | [v] => elemStr v
  | v :: rest => elemStr v ++ "," ++ elemsJoin rest

end

/-- Line 578: `value.map(v => typeof v === "string" ? "\x22v\x22" : v).join(", ")`,
quoting string elements and coercing the rest. -/
def topElem (v : Value) : String :=
  match v with
  | Value.vStr s => "\"" ++ s ++ "\""
  | _ => elemStr v

/-- Top-level list rendering with `", "` separators. -/
def topElems : List Value → String
  | [] => ""
  | [v] => topElem v
  | v :: rest => topElem v ++ ", " ++ topElems rest

mutual

/-- One entry of `formatResourceConfig`'s `Object.entries` loop
(terraform-generator.ts lines 559-593): `null`/`undefined` values are
skipped; reference-prefixed strings are unquoted, other strings are wrapped
in quotes verbatim; numbers and booleans are bare; arrays are bracketed;
objects recurse as blocks, with `tags` rendered as a map argument. -/
def formatEntry (k : String) (v : Value) (ind : Nat) (parentKey : Option String) : String :=
  let spaces := indentStr ind
  match v with
  | Value.vUndefined => ""
  | Value.vNull => ""
  | Value.vStr s =>
    if isRefString s then spaces ++ k ++ " = " ++ s ++ "\n"
    else spaces ++ k ++ " = \"" ++ s ++ "\"\n"
  | Value.vNum n => spaces ++ k ++ " = " ++ toString n ++ "\n"
  | Value.vBool b => spaces ++ k ++ " = " ++ (if b then "true" else "false") ++ "\n"
  | Value.vList l => spaces ++ k ++ " = [" ++ topElems l ++ "]\n"
  | Value.vObj fields =>
    (if k == "tags" || parentKey == some "tags" then
      spaces ++ k ++ " = \x7b\n"
     else
      spaces ++ k ++ " \x7b\n")
    ++ formatEntries fields (ind + 1) (some k)
    ++ spaces ++ "\x7d\n"

/-- `formatResourceConfig` (terraform-generator.ts lines 555-596), folded over
the entry list in order. -/
def formatEntries : List (String × Value) → Nat → Option String → String
  | [], _, _ => ""
  | (k, v) :: rest, ind, pk => formatEntry k v ind pk ++ formatEntries rest ind pk

end

/-! ## ConfigLoader (config-loader.ts lines 48-66), with its cache as state -/

/-- The `ConfigLoader.configs` map; a `Map<string, ServiceConfig>` keyed by
the joined string `provider + "/" + serviceId`.  `Map.set` on a fresh key
appends in insertion order. -/
abbrev ConfigCache := List (String × ServiceConfig)

/-- The dynamic `import` of `../config/provider/serviceId.json`: succeeds
with the parsed schema or fails (modelled as `none`; the source catches the
failure and returns `null`). -/
abbrev ImportFn := String → String → Option ServiceConfig

/-- `Map.get` on the cache. -/
def cacheGet (c : ConfigCache) (k : String) : Option ServiceConfig :=
  match c.find? (fun p => p.1 == k) with
  | some p => some p.2
  | none => none

/-- The cache key built on line 52. -/
def loadKey (provider serviceId : String) : String :=
  provider ++ "/" ++ serviceId

/-- `ConfigLoader.loadServiceConfig` (config-loader.ts lines 51-66): return
the cached schema when present; otherwise attempt the import, caching a
success and converting a failure into `null` (never a thrown error). -/
def loadServiceConfig (imp : ImportFn) (c : ConfigCache) (provider serviceId : String) :
    Option ServiceConfig × ConfigCache :=
  match cacheGet c (loadKey provider serviceId) with
  | some sc => (some sc, c)
  | none =>
    match imp provider serviceId with
    | some sc => (some sc, c ++ [(loadKey provider serviceId, sc)])
    | none => (none, c)

/-- A sequence of further loader calls, threading the cache. -/
def runLoads (imp : ImportFn) (c : ConfigCache) (reqs : List (String × String)) : ConfigCache :=
  reqs.foldl (fun st r => (loadServiceConfig imp st r.1 r.2).2) c

/-! ## Concrete fixtures used by witnesses and counterexamples -/

/-- A membership test on the generated variable map. -/
def hasVar (m : JsObj) (k : String) : Bool :=
  m.any (fun p => p.1 == k)

/-- A schema store that resolves nothing (every load fails and is caught). -/
def emptyLookup : SchemaLookup := fun _ _ => none

/-- An S3 node with no user configuration (so `bucket_name` is unset). -/
def s3Node : Node :=
  { id := "b1",
    data := { serviceId := "s3", name := Value.vStr "My Bucket",
              terraformType := "aws_s3_bucket", config := [] } }

/-- A node of an unregistered service type. -/
def widgetNode : Node :=
  { id := "w1",
    data := { serviceId := "widget", name := Value.vStr "W",
              terraformType := "aws_widget", config := [("x", Value.vStr "1")] } }

/-- An `s3`-service node compiled under the gcp provider. -/
def gcpS3Node : Node :=
  { id := "g1",
    data := { serviceId := "s3", name := Value.vStr "B",
              terraformType := "google_storage_bucket", config := [] } }

/-- A gcp database node (database category, per the `rds`/`sql` database
grouping of `generateOutputs`). -/
def sqlNode : Node :=
  { id := "n1",
    data := { serviceId := "sql", name := Value.vStr "db",
              terraformType := "google_sql_database_instance", config := [] } }

/-- An explicit VPC scaffold node. -/
def vpcNode : Node :=
  { id := "v1",
    data := { serviceId := "vpc", name := Value.vStr "net",
              terraformType := "aws_vpc", config := [] } }

/-- A compute node that requires network scaffolding. -/
def ec2Node : Node :=
  { id := "e1",
    data := { serviceId := "ec2", name := Value.vStr "web",
              terraformType := "aws_instance", config := [] } }

/-- Database-category service ids, as grouped by the database-endpoint branch
of `generateOutputs` (terraform-generator.ts lines 373-379). -/
def isDatabaseCategory (serviceId : String) : Bool :=
  serviceId == "rds" || serviceId == "sql"

/-! ## C2: dependency resolution -/

/-- The forEach-push loop of `getDependencies` is the order-preserving
`filterMap` of the edge list. -/
theorem getDependencies_eq (nodes : List Node) (t : String) (edges : List Edge) :
    getDependencies nodes edges t =
      edges.filterMap (fun e =>
        if e.target == t then (nodes.find? (fun m => m.id == e.source)).map refOf
        else none) := by
  suffices h : ∀ (es : List Edge) (acc : List String),
      es.foldl
        (fun deps e =>
          if e.target == t then
            match nodes.find? (fun n => n.id == e.source) with
            | some s => deps ++ [refOf s]
            | none => deps
          else deps)
        acc
      = acc ++ es.filterMap (fun e =>
          if e.target == t then (nodes.find? (fun m => m.id == e.source)).map refOf
          else none) by
    simpa [getDependencies] using h edges []
  intro es
  induction es with
  | nil => intro acc; simp
  | cons e es ih =>
    intro acc
    simp only [List.foldl_cons, List.filterMap_cons]
    cases he : (e.target == t) with
    | false => exact ih acc
    | true =>
      cases hf : nodes.find? (fun n => n.id == e.source) with
      | none => exact ih acc
      | some s => exact (ih (acc ++ [refOf s])).trans (by rw [List.append_assoc]; rfl)

/-- C2: the dependency list attached to a node's resource record holds
exactly one reference (`terraformType ++ "." ++ sanitized name`) per edge
whose target is that node and whose source id resolves to a node, in
edge input order; duplicate sources are kept (filterMap does not
deduplicate), and dangling edges contribute nothing and raise no error
(the resolver is total). -/
theorem C2_dependency_resolution (lookup : SchemaLookup) (provider : String)
    (nodes : List Node) (edges : List Edge) (now : Nat) (t : String) (n : Node) :
    getDependencies nodes edges t =
      edges.filterMap (fun e =>
        if e.target == t then (nodes.find? (fun m => m.id == e.source)).map refOf
        else none)
    ∧ (mainRecord lookup provider nodes edges now n).dependencies =
        getDependencies nodes edges n.id :=
  ⟨getDependencies_eq nodes t edges, rfl⟩

/-! ## C3: conditional inclusion of the credentials variable -/

/-- C3 counterexample: under the gcp provider a database-category node
(`sql`) is present, yet the generated variable set does not contain
`db_password`, so "db_password appears iff a database-category resource
exists" fails as stated. -/
theorem C3_counterexample :
    ([sqlNode].any fun n => isDatabaseCategory n.data.serviceId) = true
    ∧ hasVar (generateVariables "gcp" [sqlNode]) "db_password" = false :=
  ⟨rfl, rfl⟩

/-- C3 (amended): the generated variable set contains `db_password` exactly
when the provider is aws and at least one `rds` node exists; in particular,
removing the last `rds` node removes the variable, and non-aws database
nodes never introduce it. -/
theorem C3_db_password_iff (provider : String) (nodes : List Node) :
    hasVar (generateVariables provider nodes) "db_password" =
      (provider == "aws" && nodes.any fun n => n.data.serviceId == "rds") := by
  unfold hasVar generateVariables
  cases hc : (provider == "aws" && nodes.any fun n => n.data.serviceId == "rds") <;> rfl

/-! ## C6: the empty graph -/

/-- C6 counterexample: compiling `(provider := "aws", nodes := [], edges := [])`
does produce zero resource records and an empty outputs document, but the
variables document is not empty (it contains the two common variables), so
the claim's "empty variable documents" part fails. -/
theorem C6_counterexample :
    (generate emptyLookup "aws" [] [] 0).resources = []
    ∧ (generate emptyLookup "aws" [] [] 0).outputs = []
    ∧ (generate emptyLookup "aws" [] [] 0).variables' ≠ [] := by
  refine ⟨rfl, rfl, fun h => ?_⟩
  exact absurd (congrArg List.length h) (by decide)

/-- C6 (amended): compiling the empty aws graph succeeds (the compile pass is
a total function), with zero resource records, empty outputs, and a variables
document holding exactly the two common declarations (`environment`,
`region`), for every schema store and every clock value. -/
theorem C6_empty_graph (lookup : SchemaLookup) (now : Nat) :
    generate lookup "aws" [] [] now =
      { provider := "aws",
        resources := [],
        variables' :=
          [ ("environment", Value.vObj
              [ ("description", Value.vStr "Environment name"),
                ("type", Value.vStr "string"),
                ("default", Value.vStr "dev") ]),
            ("region", Value.vObj
              [ ("description", Value.vStr "Cloud provider region"),
                ("type", Value.vStr "string"),
                ("default", Value.vStr "us-east-1") ]) ],
        outputs := [] } := rfl

/-! ## C9: the S3 public-access-block companion record -/

/-- C9: every node whose service id is `"s3"` contributes exactly two
records, for every provider: its main record followed by an
`aws_s3_bucket_public_access_block` record carrying the same sanitized name,
whose dependency list is exactly the bucket record's reference. -/
theorem C9_s3_public_access_block (lookup : SchemaLookup) (provider : String)
    (nodes : List Node) (edges : List Edge) (now : Nat) (n : Node)
    (h : n.data.serviceId = "s3") :
    nodeRecords lookup provider nodes edges now n =
      [mainRecord lookup provider nodes edges now n, publicAccessBlock n]
    ∧ (publicAccessBlock n).type = "aws_s3_bucket_public_access_block"
    ∧ (publicAccessBlock n).name = (mainRecord lookup provider nodes edges now n).name
    ∧ (publicAccessBlock n).dependencies =
        [(mainRecord lookup provider nodes edges now n).type ++ "." ++
          (mainRecord lookup provider nodes edges now n).name] := by
  refine ⟨?_, rfl, rfl, rfl⟩
  unfold nodeRecords
  rw [h]
  rfl

/-- C9 witness: the theorem applied at a concrete s3 node under the gcp
provider. -/
theorem C9_s3_public_access_block_witness :
    nodeRecords emptyLookup "gcp" [gcpS3Node] [] 0 gcpS3Node =
      [mainRecord emptyLookup "gcp" [gcpS3Node] [] 0 gcpS3Node, publicAccessBlock gcpS3Node]
    ∧ (publicAccessBlock gcpS3Node).type = "aws_s3_bucket_public_access_block"
    ∧ (publicAccessBlock gcpS3Node).name = (mainRecord emptyLookup "gcp" [gcpS3Node] [] 0 gcpS3Node).name
    ∧ (publicAccessBlock gcpS3Node).dependencies =
        [(mainRecord emptyLookup "gcp" [gcpS3Node] [] 0 gcpS3Node).type ++ "." ++
          (mainRecord emptyLookup "gcp" [gcpS3Node] [] 0 gcpS3Node).name] :=
  C9_s3_public_access_block emptyLookup "gcp" [gcpS3Node] [] 0 gcpS3Node rfl

/-! ## C5: string rendering in the code emitter -/

/-- C5 counterexample: a string attribute value containing an inner quote is
emitted with surrounding quotes but the inner quote is NOT escaped, so the
"internal quotes escaped" part of the claim fails (the output is not the
escaped rendering). -/
theorem C5_counterexample :
    formatEntries [("description", Value.vStr "say \"hi\"")] 1 none
        = "  description = \"say \"hi\"\"\n"
    ∧ "  description = \"say \"hi\"\"\n" ≠ "  description = \"say \\\"hi\\\"\"\n" :=
  ⟨by decide, by decide⟩

/-- C5 (amended): in the emitted text a string attribute value beginning with
`var.`, `aws_`, `google_` or `azurerm_` is rendered unquoted, and every other
string attribute value is rendered with surrounding quotes and its content
verbatim (internal quotes are not escaped). -/
theorem C5_string_rendering (k s : String) (rest : List (String × Value))
    (ind : Nat) (pk : Option String) :
    formatEntries ((k, Value.vStr s) :: rest) ind pk =
      indentStr ind ++ k ++ " = " ++ (if isRefString s then s else "\"" ++ s ++ "\"") ++ "\n"
        ++ formatEntries rest ind pk := by
  simp only [formatEntries, formatEntry]
  cases h : isRefString s
  · have h1 : (" = \"" : String) = " = " ++ "\"" := rfl
    have h2 : ("\"\n" : String) = "\"" ++ "\n" := rfl
    simp only [Bool.false_eq_true, if_false, String.append_assoc]
    rw [h1, String.append_assoc, h2, String.append_assoc]
  · simp [String.append_assoc]

/-! ## C1: determinism of the compile pass -/

/-- Bucket-attribute projection of a compile result, used to separate two
outputs. -/
def c1proj (o : TerraformOutput) : String :=
  match o.resources with
  | r :: _ =>
    (match getProp r.config "bucket" with
     | Value.vStr s => s
     | _ => "")
  | [] => ""

/-- C1: the compile pass is NOT invariant under the wall clock: with an `s3`
node whose configuration leaves `bucket_name` unset, the bucket attribute
embeds `Date.now()`, so two compiles of the same `(provider, nodes, edges)`
input at different clock values produce different output. -/
theorem C1_clock_dependence :
    c1proj (generate emptyLookup "aws" [s3Node] [] 0) = "my_bucket-bucket-0"
    ∧ c1proj (generate emptyLookup "aws" [s3Node] [] 1) = "my_bucket-bucket-1"
    ∧ generate emptyLookup "aws" [s3Node] [] 0 ≠ generate emptyLookup "aws" [s3Node] [] 1 :=
  ⟨rfl, rfl, fun h => absurd (congrArg c1proj h) (by decide)⟩

/-! ## C7: implicit infrastructure injection -/

/-- C7: the implicit-infrastructure contribution injects at most one shared
scaffold set per graph: an explicit `vpc` node suppresses injection entirely,
duplicating the node set does not change what is injected (never one
instance per node), the contribution is either empty or exactly the one
shared scaffold record set, and within that set every `(type, name)` resource
identity occurs exactly once. -/
theorem C7_scaffold_injection (provider : String) (nodes : List Node) :
    ((∃ n ∈ nodes, n.data.serviceId = "vpc") → injectedScaffold provider nodes = [])
    ∧ injectedScaffold provider (nodes ++ nodes) = injectedScaffold provider nodes
    ∧ (injectedScaffold provider nodes = []
        ∨ injectedScaffold provider nodes =
            vpcInfrastructure ++ [defaultSecurityGroup] ++ securityGroupRules)
    ∧ (((vpcInfrastructure ++ [defaultSecurityGroup] ++ securityGroupRules).map
          (fun r => (r.type, r.name))).Nodup) := by
  refine ⟨?_, ?_, ?_, by decide⟩
  · rintro ⟨n, hn, hsid⟩
    have hv : nodes.any (fun m => m.data.serviceId == "vpc") = true :=
      List.any_eq_true.mpr ⟨n, hn, by simp [hsid]⟩
    unfold injectedScaffold needsVPCInfrastructure
    rw [hv]
    simp
  · unfold injectedScaffold needsVPCInfrastructure
    rw [List.any_append, List.any_append, Bool.or_self, Bool.or_self]
  · unfold injectedScaffold
    cases h : (provider == "aws" && needsVPCInfrastructure nodes) with
    | false => exact Or.inl rfl
    | true => exact Or.inr rfl

/-- C7 witness: with an explicit `vpc` node next to an `ec2` node nothing is
injected, and doubling a node set leaves the injected contribution
unchanged. -/
theorem C7_scaffold_injection_witness :
    injectedScaffold "aws" [ec2Node, vpcNode] = []
    ∧ injectedScaffold "aws" ([ec2Node] ++ [ec2Node]) = injectedScaffold "aws" [ec2Node] :=
  ⟨(C7_scaffold_injection "aws" [ec2Node, vpcNode]).1
      ⟨vpcNode, List.Mem.tail _ (List.Mem.head _), rfl⟩,
    (C7_scaffold_injection "aws" [ec2Node]).2.1⟩

/-! ## C8: schema lookup caching -/

/-- Appending entries on the right never disturbs an existing cache hit. -/
theorem cacheGet_append_of_some {c : ConfigCache} {k : String} {sc : ServiceConfig}
    (tail : ConfigCache) (h : cacheGet c k = some sc) :
    cacheGet (c ++ tail) k = some sc := by
  induction c with
  | nil => simp [cacheGet, List.find?] at h
  | cons p c ih =>
    cases hp : (p.1 == k) with
    | true =>
      simp only [cacheGet, List.find?, hp] at h ⊢
      exact h
    | false =>
      simp only [cacheGet, List.find?, hp] at h ⊢
      exact ih h

/-- A key missing from the cache is found in a singleton appended for it. -/
theorem cacheGet_append_hit {c : ConfigCache} {k : String} (sc : ServiceConfig)
    (h : cacheGet c k = none) :
    cacheGet (c ++ [(k, sc)]) k = some sc := by
  induction c with
  | nil => simp [cacheGet, List.find?]
  | cons p c ih =>
    cases hp : (p.1 == k) with
    | true =>
      simp only [cacheGet, List.find?, hp] at h
      exact Option.noConfusion h
    | false =>
      simp only [cacheGet, List.find?, hp] at h ⊢
      exact ih h

/-- One loader call never removes or overwrites an existing cache entry. -/
theorem loadServiceConfig_preserves (imp : ImportFn) (c : ConfigCache) (p s k : String)
    (sc : ServiceConfig) (h : cacheGet c k = some sc) :
    cacheGet (loadServiceConfig imp c p s).2 k = some sc := by
  unfold loadServiceConfig
  cases h0 : cacheGet c (loadKey p s) with
  | some x => exact h
  | none =>
    cases h1 : imp p s with
    | some y => exact cacheGet_append_of_some [(loadKey p s, y)] h
    | none => exact h

/-- A cached entry survives any sequence of further loader calls. -/
theorem runLoads_preserves (imp : ImportFn) (k : String) (sc : ServiceConfig) :
    ∀ (reqs : List (String × String)) (c : ConfigCache),
      cacheGet c k = some sc → cacheGet (runLoads imp c reqs) k = some sc
  | [], _, h => h
  | r :: rs, c, h =>
    runLoads_preserves imp k sc rs (loadServiceConfig imp c r.1 r.2).2
      (loadServiceConfig_preserves imp c r.1 r.2 k sc h)

/-- C8: the loader is total (it returns a schema entry or `null`, never a
thrown error — modelled by its `Option` result), and a successfully resolved
entry is cached under the `provider ++ "/" ++ serviceId` key: after any
sequence of further loads, looking up the same pair again returns the cached
entry and leaves the cache unchanged. -/
theorem C8_schema_cache (imp : ImportFn) (c : ConfigCache) (p s : String)
    (sc : ServiceConfig) (h : (loadServiceConfig imp c p s).1 = some sc)
    (reqs : List (String × String)) :
    loadServiceConfig imp (runLoads imp (loadServiceConfig imp c p s).2 reqs) p s =
      (some sc, runLoads imp (loadServiceConfig imp c p s).2 reqs) := by
  have hcached : cacheGet (loadServiceConfig imp c p s).2 (loadKey p s) = some sc := by
    unfold loadServiceConfig at h ⊢
    cases h0 : cacheGet c (loadKey p s) with
    | some x =>
      rw [h0] at h
      have hx : x = sc := Option.some.inj h
      rw [← hx]
      exact h0
    | none =>
      rw [h0] at h
      cases h1 : imp p s with
      | some y =>
        rw [h1] at h
        have hy : y = sc := Option.some.inj h
        rw [← hy]
        exact cacheGet_append_hit y h0
      | none =>
        rw [h1] at h
        exact Option.noConfusion h
  have h2 := runLoads_preserves imp (loadKey p s) sc reqs
    (loadServiceConfig imp c p s).2 hcached
  revert h2
  generalize (loadServiceConfig imp c p s).2 = st
  intro h2
  unfold loadServiceConfig
  rw [h2]

/-- A concrete schema entry used by the C8 witness. -/
def cfgA : ServiceConfig :=
  { id := "ec2", name := "EC2", category := "compute",
    terraformType := "aws_instance", defaultConfig := [] }

/-- A concrete import function that only resolves `aws/ec2`. -/
def impA : ImportFn :=
  fun p s => if p == "aws" && s == "ec2" then some cfgA else none

/-- C8 witness: resolving `aws/ec2` on an empty cache, then loading another
pair, then looking up `aws/ec2` again returns the cached entry without
changing the cache. -/
theorem C8_schema_cache_witness :
    loadServiceConfig impA
        (runLoads impA (loadServiceConfig impA [] "aws" "ec2").2 [("aws", "s3")]) "aws" "ec2" =
      (some cfgA, runLoads impA (loadServiceConfig impA [] "aws" "ec2").2 [("aws", "s3")]) :=
  C8_schema_cache impA [] "aws" "ec2" cfgA rfl [("aws", "s3")]

/-! ## C4: unknown-service fallback -/

/-- The AWS per-service dispatch branches of `generateAWSConfig`. -/
def awsDispatch (sid : String) : Bool :=
  sid == "ec2" || sid == "s3" || sid == "rds" || sid == "lambda" || sid == "vpc" || sid == "alb"

/-- The GCP per-service dispatch branches of `generateGCPConfig`. -/
def gcpDispatch (sid : String) : Bool :=
  sid == "compute" || sid == "storage" || sid == "sql"

/-- The Azure per-service dispatch branches of `generateAzureConfig`. -/
def azureDispatch (sid : String) : Bool :=
  sid == "vm" || sid == "blob"

/-- Whether a `(provider, serviceId)` pair hits a per-service dispatch branch
of the Resource Config Synthesizer. -/
def dispatchHit (provider sid : String) : Bool :=
  if provider == "aws" then awsDispatch sid
  else if provider == "gcp" then gcpDispatch sid
  else if provider == "azure" then azureDispatch sid
  else false

/-- C4 counterexample: under aws, a node with an unregistered service id does
not get its merged configuration back verbatim — a computed `tags` attribute
is appended; and under gcp, an unregistered pair with service id `"s3"`
produces two records, not one. -/
theorem C4_counterexample :
    generateResourceConfig emptyLookup "aws" widgetNode 0 =
      [ ("x", Value.vStr "1"),
        ("tags", Value.vObj
          [ ("Name", Value.vStr "W"),
            ("Environment", Value.vStr "terraform-generated") ]) ]
    ∧ generateResourceConfig emptyLookup "aws" widgetNode 0 ≠ widgetNode.data.config
    ∧ (nodeRecords emptyLookup "gcp" [gcpS3Node] [] 0 gcpS3Node).length = 2 := by
  refine ⟨rfl, fun h => ?_, rfl⟩
  exact absurd (congrArg List.length h) (by decide)

/-- C4 (amended): a node whose `(provider, serviceId)` pair has no schema
entry and no dispatch branch still produces exactly one resource record
(provided its service id is not `"s3"`, which always adds the public-access
-block companion), whose attributes are the merged user configuration —
verbatim for gcp, azure and unknown providers, and with exactly one computed
default `tags` attribute appended under aws; no reference attributes are
added in any case. -/
theorem C4_unknown_service_fallback (lookup : SchemaLookup) (provider : String)
    (nodes : List Node) (edges : List Edge) (now : Nat) (n : Node)
    (hschema : lookup provider n.data.serviceId = none)
    (hdisp : dispatchHit provider n.data.serviceId = false)
    (hs3 : n.data.serviceId ≠ "s3") :
    nodeRecords lookup provider nodes edges now n =
      [ { type := n.data.terraformType,
          name := resourceNameOf n,
          config :=
            if provider == "aws" then
              upsert n.data.config "tags" (awsTags n.data.config n)
            else n.data.config,
          dependencies := getDependencies nodes edges n.id } ] := by
  have hns3 : (n.data.serviceId == "s3") = false := beq_eq_false_iff_ne.mpr hs3
  have hconf : generateResourceConfig lookup provider n now =
      (if provider == "aws" then upsert n.data.config "tags" (awsTags n.data.config n)
       else n.data.config) := by
    unfold generateResourceConfig
    rw [hschema]
    cases ha : (provider == "aws") with
    | true =>
      have haws : awsDispatch n.data.serviceId = false := by
        unfold dispatchHit at hdisp
        rw [ha] at hdisp
        exact hdisp
      unfold awsDispatch at haws
      simp only [Bool.or_eq_false_iff] at haws
      obtain ⟨⟨⟨⟨⟨h1, _⟩, h3⟩, h4⟩, h5⟩, h6⟩ := haws
      unfold generateAWSConfig
      rw [h1, hns3, h3, h4, h5, h6]
      rfl
    | false =>
      cases hg : (provider == "gcp") with
      | true =>
        have hgcp : gcpDispatch n.data.serviceId = false := by
          unfold dispatchHit at hdisp
          rw [ha, hg] at hdisp
          exact hdisp
        unfold gcpDispatch at hgcp
        simp only [Bool.or_eq_false_iff] at hgcp
        obtain ⟨⟨g1, g2⟩, g3⟩ := hgcp
        unfold generateGCPConfig
        rw [g1, g2, g3]
        rfl
      | false =>
        cases hz : (provider == "azure") with
        | true =>
          have haz : azureDispatch n.data.serviceId = false := by
            unfold dispatchHit at hdisp
            rw [ha, hg, hz] at hdisp
            exact hdisp
          unfold azureDispatch at haz
          simp only [Bool.or_eq_false_iff] at haz
          obtain ⟨z1, z2⟩ := haz
          unfold generateAzureConfig
          rw [z1, z2]
          rfl
        | false => rfl
  unfold nodeRecords mainRecord
  rw [hns3, hconf]
  rfl

/-- C4 witness: the amended theorem applied to a concrete unregistered node
under the gcp provider, where the configuration passes through verbatim. -/
theorem C4_unknown_service_fallback_witness :
    nodeRecords emptyLookup "gcp" [widgetNode] [] 0 widgetNode =
      [ { type := "aws_widget", name := "w",
          config := [("x", Value.vStr "1")],
          dependencies := [] } ] :=
  C4_unknown_service_fallback emptyLookup "gcp" [widgetNode] [] 0 widgetNode
    rfl rfl (by decide)


/-! ## C10: sanitizeName shape and idempotence -/

/-- No two adjacent underscores. -/
def noDoubleU : List Char → Bool
  | a :: b :: t => !(a == '_' && b == '_') && noDoubleU (b :: t)
  | _ => true

/-- Split a true conjunction of booleans. -/
theorem bandSplit {a b : Bool} (h : (a && b) = true) : a = true ∧ b = true := by
  cases a <;> cases b <;> simp_all

/-- Every character produced by the lower-and-replace pass is a lowercase
letter, a digit, or an underscore. -/
theorem lowerKeep_ok (c : Char) : isKeep (lowerKeep c) = true ∨ lowerKeep c = '_' := by
  unfold lowerKeep
  cases h : isKeep (jsToLower c) with
  | true => exact Or.inl h
  | false => exact Or.inr rfl

/-- Squeezing only removes characters. -/
theorem mem_of_mem_squeeze : ∀ (l : List Char) (c : Char), c ∈ squeeze l → c ∈ l
  | [], _, h => h
  | [_], _, h => h
  | a :: b :: t, c, h => by
    simp only [squeeze] at h
    cases hab : (a == '_' && b == '_') with
    | true =>
      rw [hab] at h
      exact List.mem_cons_of_mem a (mem_of_mem_squeeze (b :: t) c h)
    | false =>
      rw [hab] at h
      rcases List.mem_cons.mp h with h1 | h2
      · rw [h1]; exact List.mem_cons_self a (b :: t)
      · exact List.mem_cons_of_mem a (mem_of_mem_squeeze (b :: t) c h2)

/-- Squeezing keeps the head. -/
theorem head?_squeeze : ∀ (l : List Char), (squeeze l).head? = l.head?
  | [] => rfl
  | [_] => rfl
  | a :: b :: t => by
    simp only [squeeze]
    cases hab : (a == '_' && b == '_') with
    | true =>
      have ha : a = '_' := beq_iff_eq.mp (bandSplit hab).1
      have hb : b = '_' := beq_iff_eq.mp (bandSplit hab).2
      have ih := head?_squeeze (b :: t)
      rw [if_pos rfl, ih, List.head?_cons, List.head?_cons, ha, hb]
    | false => rfl

/-- The squeezed list has no two adjacent underscores. -/
theorem noDoubleU_squeeze : ∀ (l : List Char), noDoubleU (squeeze l) = true
  | [] => rfl
  | [_] => rfl
  | a :: b :: t => by
    simp only [squeeze]
    cases hab : (a == '_' && b == '_') with
    | true => exact noDoubleU_squeeze (b :: t)
    | false =>
      have ih := noDoubleU_squeeze (b :: t)
      cases hs : squeeze (b :: t) with
      | nil => rfl
      | cons c t2 =>
        have h1 := head?_squeeze (b :: t)
        rw [hs] at h1
        have hcb : c = b := Option.some.inj h1
        rw [hs] at ih
        subst hcb
        show (!(a == '_' && c == '_') && noDoubleU (c :: t2)) = true
        rw [hab, ih]
        rfl

/-- noDoubleU is inherited by the tail. -/
theorem noDoubleU_tail (a : Char) (l : List Char) (h : noDoubleU (a :: l) = true) :
    noDoubleU l = true := by
  cases l with
  | nil => rfl
  | cons b t => exact (bandSplit h).2

/-- Dropping a leading underscore preserves the no-double-underscore shape. -/
theorem noDoubleU_dropLeadU (l : List Char) (h : noDoubleU l = true) :
    noDoubleU (dropLeadU l) = true := by
  cases l with
  | nil => rfl
  | cons c t =>
    simp only [dropLeadU]
    cases hc : (c == '_') with
    | true => exact noDoubleU_tail c t h
    | false => exact h

/-- Dropping the last element preserves the no-double-underscore shape. -/
theorem noDoubleU_dropLast : ∀ (l : List Char), noDoubleU l = true →
    noDoubleU l.dropLast = true
  | [], _ => rfl
  | [_], _ => rfl
  | a :: b :: t, h => by
    have hsplit := bandSplit h
    cases t with
    | nil => rfl
    | cons c t2 =>
      have ih := noDoubleU_dropLast (b :: c :: t2) hsplit.2
      show (!(a == '_' && b == '_') && noDoubleU (b :: List.dropLast (c :: t2))) = true
      rw [hsplit.1]
      exact ih

/-- After the squeeze, at most one leading underscore exists, so dropping it
leaves a head that is not an underscore. -/
theorem head?_dropLeadU_ne (l : List Char) (h : noDoubleU l = true) :
    (dropLeadU l).head? ≠ some '_' := by
  cases l with
  | nil => intro hd; exact Option.noConfusion hd
  | cons c t =>
    simp only [dropLeadU]
    cases hc : (c == '_') with
    | true =>
      cases t with
      | nil => intro hd; exact Option.noConfusion hd
      | cons d t2 =>
        intro hd
        have hdu : d = '_' := Option.some.inj hd
        have h1 := (bandSplit h).1
        rw [hc, hdu] at h1
        simp at h1
    | false =>
      intro hd
      have hcu : c = '_' := Option.some.inj hd
      rw [hcu] at hc
      simp at hc

/-- In a no-double-underscore list ending in an underscore, the element
before the last one is not an underscore. -/
theorem getLast?_dropLast_ne : ∀ (l : List Char), noDoubleU l = true →
    l.getLast? = some '_' → l.dropLast.getLast? ≠ some '_'
  | [], _, hl => by exact Option.noConfusion hl
  | [_], _, _ => by intro hd; exact Option.noConfusion hd
  | a :: b :: t, h, hl => by
    have hsplit := bandSplit h
    cases t with
    | nil =>
      have hb : b = '_' := Option.some.inj hl
      intro hd
      have ha : a = '_' := Option.some.inj hd
      rw [ha, hb] at hsplit
      rcases hsplit with ⟨h1, _⟩
      simp at h1
    | cons c t2 =>
      intro hd
      exact getLast?_dropLast_ne (b :: c :: t2) hsplit.2 hl hd

/-- Stripping the trailing underscore of a no-double-underscore list leaves
no trailing underscore. -/
theorem getLast?_dropTrailU_ne (l : List Char) (h : noDoubleU l = true) :
    (dropTrailU l).getLast? ≠ some '_' := by
  unfold dropTrailU
  cases hc : (l.getLast? == some '_') with
  | true => exact getLast?_dropLast_ne l h (beq_iff_eq.mp hc)
  | false => exact beq_eq_false_iff_ne.mp hc

/-- The head surviving `dropTrailU` was already the head. -/
theorem head?_dropTrailU (l : List Char) (c : Char)
    (h : (dropTrailU l).head? = some c) : l.head? = some c := by
  unfold dropTrailU at h
  cases hc : (l.getLast? == some '_') with
  | true =>
    rw [hc] at h
    cases l with
    | nil => exact Option.noConfusion h
    | cons a t =>
      cases t with
      | nil => exact Option.noConfusion h
      | cons b t2 => exact h
  | false =>
    rw [hc] at h
    exact h

/-- Characters of `dropLeadU l` come from `l`. -/
theorem mem_of_mem_dropLeadU (l : List Char) (c : Char) (h : c ∈ dropLeadU l) :
    c ∈ l := by
  cases l with
  | nil => exact h
  | cons a t =>
    simp only [dropLeadU] at h
    cases ha : (a == '_') with
    | true => rw [ha] at h; exact List.mem_cons_of_mem a h
    | false => rw [ha] at h; exact h

/-- Characters of `dropTrailU l` come from `l`. -/
theorem mem_of_mem_dropTrailU (l : List Char) (c : Char) (h : c ∈ dropTrailU l) :
    c ∈ l := by
  unfold dropTrailU at h
  cases hc : (l.getLast? == some '_') with
  | true =>
    rw [hc] at h
    exact List.dropLast_subset l h
  | false =>
    rw [hc] at h
    exact h

/-- Every character of the sanitized list is a lowercase letter, a digit or
an underscore. -/
theorem sanitizeList_charset (cs : List Char) (c : Char) (h : c ∈ sanitizeList cs) :
    isKeep c = true ∨ c = '_' := by
  have h1 : c ∈ cs.map lowerKeep :=
    mem_of_mem_squeeze _ c (mem_of_mem_dropLeadU _ c (mem_of_mem_dropTrailU _ c h))
  rcases List.mem_map.mp h1 with ⟨d, _, hd⟩
  rw [← hd]
  exact lowerKeep_ok d

/-- The sanitized list has no two adjacent underscores. -/
theorem sanitizeList_noDoubleU (cs : List Char) : noDoubleU (sanitizeList cs) = true := by
  unfold sanitizeList dropTrailU
  cases hc : ((dropLeadU (squeeze (cs.map lowerKeep))).getLast? == some '_') with
  | true => exact noDoubleU_dropLast _ (noDoubleU_dropLeadU _ (noDoubleU_squeeze _))
  | false => exact noDoubleU_dropLeadU _ (noDoubleU_squeeze _)

/-- The sanitized list does not start with an underscore. -/
theorem sanitizeList_head (cs : List Char) :
    (sanitizeList cs).head? ≠ some '_' := by
  intro h
  exact head?_dropLeadU_ne (squeeze (cs.map lowerKeep)) (noDoubleU_squeeze _)
    (head?_dropTrailU _ _ h)

/-- The sanitized list does not end with an underscore. -/
theorem sanitizeList_last (cs : List Char) :
    (sanitizeList cs).getLast? ≠ some '_' :=
  getLast?_dropTrailU_ne _ (noDoubleU_dropLeadU _ (noDoubleU_squeeze _))

/-- A character already in sanitized shape is fixed by the
lower-and-replace pass. -/
theorem lowerKeep_fix (c : Char) (h : isKeep c = true ∨ c = '_') :
    lowerKeep c = c := by
  rcases h with h | h
  · have hl : jsToLower c = c := by
      have hk := h
      unfold isKeep at hk
      simp only [Bool.or_eq_true, Bool.and_eq_true, decide_eq_true_eq] at hk
      unfold jsToLower
      cases hb : ((65 ≤ c.toNat && c.toNat ≤ 90 : Bool)) with
      | false => rfl
      | true =>
        exfalso
        simp only [Bool.and_eq_true, decide_eq_true_eq] at hb
        omega
    unfold lowerKeep
    rw [hl, h]
    rfl
  · rw [h]
    rfl

/-- A list of sanitized-shape characters is fixed by the map pass. -/
theorem map_lowerKeep_fix : ∀ (l : List Char),
    (∀ c ∈ l, isKeep c = true ∨ c = '_') → l.map lowerKeep = l
  | [], _ => rfl
  | c :: t, h => by
    have hc := lowerKeep_fix c (h c (List.mem_cons_self c t))
    have ht := map_lowerKeep_fix t (fun d hd => h d (List.mem_cons_of_mem c hd))
    simp only [List.map_cons, hc, ht]

/-- A no-double-underscore list is fixed by the squeeze pass. -/
theorem squeeze_fix : ∀ (l : List Char), noDoubleU l = true → squeeze l = l
  | [], _ => rfl
  | [_], _ => rfl
  | a :: b :: t, h => by
    have hsplit := bandSplit h
    have hab : (a == '_' && b == '_') = false := by
      cases hx : (a == '_' && b == '_') with
      | false => rfl
      | true => rw [hx] at hsplit; rcases hsplit with ⟨h1, _⟩; simp at h1
    simp only [squeeze, hab]
    rw [squeeze_fix (b :: t) hsplit.2]
    rfl

/-- A list not starting with an underscore is fixed by `dropLeadU`. -/
theorem dropLeadU_fix (l : List Char) (h : l.head? ≠ some '_') :
    dropLeadU l = l := by
  cases l with
  | nil => rfl
  | cons c t =>
    simp only [dropLeadU]
    cases hc : (c == '_') with
    | true => exact absurd (by rw [beq_iff_eq.mp hc]; rfl) h
    | false => rfl

/-- A list not ending with an underscore is fixed by `dropTrailU`. -/
theorem dropTrailU_fix (l : List Char) (h : l.getLast? ≠ some '_') :
    dropTrailU l = l := by
  unfold dropTrailU
  cases hc : (l.getLast? == some '_') with
  | true => exact absurd (beq_iff_eq.mp hc) h
  | false => rfl

/-- The sanitized list is a fixed point of sanitization. -/
theorem sanitizeList_idem (cs : List Char) :
    sanitizeList (sanitizeList cs) = sanitizeList cs := by
  have h1 := map_lowerKeep_fix (sanitizeList cs) (sanitizeList_charset cs)
  show dropTrailU (dropLeadU (squeeze ((sanitizeList cs).map lowerKeep))) = sanitizeList cs
  rw [h1, squeeze_fix _ (sanitizeList_noDoubleU cs), dropLeadU_fix _ (sanitizeList_head cs),
    dropTrailU_fix _ (sanitizeList_last cs)]

/-- C10: `sanitizeName` returns a string of lowercase letters, digits and
non-consecutive underscores, with no leading or trailing underscore, and is
idempotent: sanitizing its own output changes nothing. -/
theorem C10_sanitize_name (s : String) :
    (∀ c ∈ (sanitizeName s).toList, isKeep c = true ∨ c = '_')
    ∧ noDoubleU (sanitizeName s).toList = true
    ∧ (sanitizeName s).toList.head? ≠ some '_'
    ∧ (sanitizeName s).toList.getLast? ≠ some '_'
    ∧ sanitizeName (sanitizeName s) = sanitizeName s := by
  refine ⟨fun c hc => sanitizeList_charset s.toList c hc,
    sanitizeList_noDoubleU s.toList,
    sanitizeList_head s.toList,
    sanitizeList_last s.toList,
    ?_⟩
  show String.mk (sanitizeList (sanitizeList s.toList)) = String.mk (sanitizeList s.toList)
  rw [sanitizeList_idem]

end InfraBlocks
